import Mathlib

/-
Verification of the request-result cache at the core of the Yahoo Finance
agent tool (tool.py, CustomAgentTool) and of its construction-time
configuration (set_config, LazyLogger.set_level from logging.py).

The embedding models:
  - tool arguments as association lists of string keys and JSON-like values
    (Python dicts in the source, hence unique keys);
  - the cache key computation json.dumps(args, sort_keys=True) as a
    deterministic serialization of the key-sorted association list;
  - the two instance dicts self.cache and self.cache_timestamps as
    association lists with Python-dict get/set semantics;
  - the cache-relevant part of CustomAgentTool.invoke (lines 182-277):
    key computation, the freshness check of line 186, the store of lines
    264-265, and the exception handler of lines 269-277 which returns an
    error outcome to the caller without touching the cache.  The action
    dispatch (lines 193-260) that produces the result or raises is
    abstracted as a fetch function returning Except.
Timestamps are modeled as integers (time.time() values); results are an
arbitrary type, since the cache never inspects them.
-/

namespace YFTool

/-- JSON-like values appearing in tool arguments: strings, integers and
arrays, matching the value shapes of the input schema of the tool. -/
inductive JValue where
  | str (s : String)
  | int (n : Int)
  | arr (elems : List JValue)

/-- A request is a Python dict from string keys to values, modeled as an
association list; well-formed requests have pairwise distinct keys. -/
abbrev Request := List (String × JValue)

mutual

/-- Serialization of a value as json.dumps renders it (default
separators; string escaping is immaterial for the keys in play). -/
def renderJValue : JValue → String
  | JValue.str s => "\"" ++ s ++ "\""
  | JValue.int n => toString n
  | JValue.arr l => "[" ++ renderElems l ++ "]"

/-- Serialization of the elements of a JSON array, comma separated. -/
def renderElems : List JValue → String
  | [] => ""
  | [v] => renderJValue v
  | v :: rest => renderJValue v ++ ", " ++ renderElems rest

end

mutual

/-- Decidable equality of values, written out because the nested list
argument defeats the deriving handler. -/
def JValue.decEq : (a b : JValue) → Decidable (a = b)
  | JValue.str a, JValue.str b =>
      match String.decEq a b with
      | isTrue h => isTrue (by rw [h])
      | isFalse h => isFalse (fun hh => h (by injection hh))
  | JValue.str _, JValue.int _ => isFalse (fun h => JValue.noConfusion h)
  | JValue.str _, JValue.arr _ => isFalse (fun h => JValue.noConfusion h)
  | JValue.int _, JValue.str _ => isFalse (fun h => JValue.noConfusion h)
  | JValue.int a, JValue.int b =>
      match Int.decEq a b with
      | isTrue h => isTrue (by rw [h])
      | isFalse h => isFalse (fun hh => h (by injection hh))
  | JValue.int _, JValue.arr _ => isFalse (fun h => JValue.noConfusion h)
  | JValue.arr _, JValue.str _ => isFalse (fun h => JValue.noConfusion h)
  | JValue.arr _, JValue.int _ => isFalse (fun h => JValue.noConfusion h)
  | JValue.arr a, JValue.arr b =>
      match JValue.decEqList a b with
      | isTrue h => isTrue (by rw [h])
      | isFalse h => isFalse (fun hh => h (by injection hh))

/-- Decidable equality of value lists, mutual with JValue.decEq. -/
def JValue.decEqList : (a b : List JValue) → Decidable (a = b)
  | [], [] => isTrue rfl
  | [], _ :: _ => isFalse (fun h => List.noConfusion h)
  | _ :: _, [] => isFalse (fun h => List.noConfusion h)
  | x :: xs, y :: ys =>
      match JValue.decEq x y with
      | isFalse h1 => isFalse (fun hh => by injection hh with h3 h4; exact h1 h3)
      | isTrue h1 =>
        match JValue.decEqList xs ys with
        | isTrue h2 => isTrue (by rw [h1, h2])
        | isFalse h2 => isFalse (fun hh => by injection hh with h3 h4; exact h2 h4)

end

instance : DecidableEq JValue := JValue.decEq

/-- Python dict lookup d[k] as an Option, first matching key. -/
def dict_get {β : Type} : List (String × β) → String → Option β
  | [], _ => none
  | (k', v) :: rest, k => if k' = k then some v else dict_get rest k

/-- Python dict assignment d[k] = v: replaces the existing binding for k
in place, otherwise appends a new binding. -/
def dict_set {β : Type} : List (String × β) → String → β → List (String × β)
  | [], k, v => [(k, v)]
  | (k', v') :: rest, k, v =>
      if k' = k then (k, v) :: rest else (k', v') :: dict_set rest k v

/-- Comparison of request entries by key, the order used by sort_keys. -/
abbrev keyLE (a b : String × JValue) : Prop := a.1 ≤ b.1

/-- Strict comparison of request entries by key. -/
abbrev keyLT (a b : String × JValue) : Prop := a.1 < b.1

/-- Decision procedure for the string order through the character lists,
which evaluates where the iterator-based builtin one does not. -/
def decStrLe (a b : String) : Decidable (a ≤ b) :=
  decidable_of_iff (¬ b.toList < a.toList)
    (not_lt.trans String.le_iff_toList_le.symm)

instance : DecidableRel keyLE := fun a b => decStrLe a.1 b.1

instance : IsTotal (String × JValue) keyLE := ⟨fun a b => le_total a.1 b.1⟩

instance : IsTrans (String × JValue) keyLE := ⟨fun _ _ _ h1 h2 => le_trans h1 h2⟩

instance : IsAntisymm (String × JValue) keyLT :=
  ⟨fun _ _ h1 h2 => absurd h1 (lt_asymm h2)⟩

/-- Key-sorting of a request, as json.dumps(..., sort_keys=True) does. -/
def sortByKey (r : Request) : Request := List.insertionSort keyLE r

/-- The cache key of tool.py line 182: json.dumps(args, sort_keys=True),
a brace-delimited, comma-separated rendering of the key-sorted dict. -/
def canonicalize (r : Request) : String :=
  "\x7b" ++
    String.intercalate ", "
      ((sortByKey r).map (fun p => "\"" ++ p.1 ++ "\": " ++ renderJValue p.2)) ++
    "\x7d"

/-- The cache-relevant instance state of CustomAgentTool: self.cache_expiry,
self.cache and self.cache_timestamps, set up by set_config (lines 23-25). -/
structure ToolState (α : Type) where
  cache_expiry : Int
  cache : List (String × α)
  cache_timestamps : List (String × Int)

/-- The configuration consumed at construction: config.get("cache_expiry", 5)
in minutes and config.get("logging_level", "INFO"). -/
structure Config where
  cache_expiry : Option Int
  logging_level : Option String

/-- The integer logging constants getattr(logging, name) resolves for the
uppercase level names of the Python logging module; anything else is None. -/
def levelConstant : String → Option Int
  | "DEBUG" => some 10
  | "INFO" => some 20
  | "WARNING" => some 30
  | "WARN" => some 30
  | "ERROR" => some 40
  | "CRITICAL" => some 50
  | "FATAL" => some 50
  | "NOTSET" => some 0
  | _ => none

/-- Uppercasing of a level name, the str.upper() of logging.py line 42,
written as a character map so that it evaluates. -/
def upper (s : String) : String := String.mk (s.data.map Char.toUpper)

/-- LazyLogger.set_level (logging.py lines 36-46): resolves the uppercased
name to a logging constant and raises ValueError when the result is not an
integer; on success the logger level becomes that constant. -/
def set_level (level : String) : Except String Int :=
  match levelConstant (upper level) with
  | some c => Except.ok c
  | none => Except.error ("Invalid log level: " ++ level)

/-- CustomAgentTool.set_config (tool.py lines 21-32): creates the two empty
cache dicts, derives cache_expiry as the configured minutes times 60 with
default 5, then calls setup_logging, which re-raises the ValueError of
set_level on an invalid logging level.  No validation is applied to the
expiry value.  The managed-folder setup of line 28 is external I/O with no
bearing on the cache and is elided. -/
def set_config (α : Type) (config : Config) : Except String (ToolState α) :=
  match set_level (config.logging_level.getD "INFO") with
  | Except.ok _ => Except.ok ⟨(config.cache_expiry.getD 5) * 60, [], []⟩
  | Except.error e => Except.error e

/-- The freshness check of tool.py line 186: the stored result is returned
iff the key is present in self.cache and now minus
self.cache_timestamps.get(key, 0) is strictly below self.cache_expiry. -/
def cache_get {α : Type} (s : ToolState α) (key : String) (now : Int) : Option α :=
  match dict_get s.cache key with
  | some r =>
      if now - ((dict_get s.cache_timestamps key).getD 0) < s.cache_expiry
      then some r else none
  | none => none

/-- The store of tool.py lines 264-265: self.cache[key] = result and
self.cache_timestamps[key] = current_time, in the same step. -/
def cache_put {α : Type} (s : ToolState α) (key : String) (r : α) (now : Int) :
    ToolState α :=
  { s with
    cache := dict_set s.cache key r
    cache_timestamps := dict_set s.cache_timestamps key now }

/-- The cache-relevant behavior of CustomAgentTool.invoke: compute the
canonical key, return the cached result on a fresh hit; otherwise run the
fetch, store a successful outcome under the key, and on failure return the
error outcome leaving both dicts untouched (lines 269-277).  The returned
Bool records whether the fetch path (lines 193-260) was taken. -/
def invoke {α ε : Type} (s : ToolState α) (args : Request) (now : Int)
    (fetchFn : Request → Except ε α) : Except ε α × ToolState α × Bool :=
  match cache_get s (canonicalize args) now with
  | some r => (Except.ok r, s, false)
  | none =>
      match fetchFn args with
      | Except.ok r => (Except.ok r, cache_put s (canonicalize args) r now, true)
      | Except.error e => (Except.error e, s, true)

/-- Iterated invocation: runs invoke over a list of timestamped requests,
returning the outcomes in order, the final state, and how many of the calls
took the fetch path. -/
def runCalls {α ε : Type} (fetchFn : Request → Except ε α) :
    ToolState α → List (Int × Request) → List (Except ε α) × ToolState α × Nat
  | s, [] => ([], s, 0)
  | s, c :: rest =>
      let out := invoke s c.2 c.1 fetchFn
      let next := runCalls fetchFn out.2.1 rest
      (out.1 :: next.1, next.2.1, (if out.2.2 then 1 else 0) + next.2.2)

/-- The parameter aliasing of tool.py line 195:
args.get("symbol", args.get("ticker")), applied only after the cache key
has been computed. -/
def effectiveSymbol (args : Request) : Option JValue :=
  match dict_get args "symbol" with
  | some v => some v
  | none => dict_get args "ticker"

/-- The default filling of tool.py line 206: args.get("period", "1mo"),
applied only after the cache key has been computed. -/
def effectivePeriod (args : Request) : JValue :=
  (dict_get args "period").getD (JValue.str "1mo")

/-- The tool states reachable from construction: a state produced by a
successful set_config, or any state reached from a reachable one by an
invoke with arbitrary arguments, time and fetch outcome. -/
inductive Reachable (α ε : Type) : ToolState α → Prop where
  | init (config : Config) (s : ToolState α)
      (h : set_config α config = Except.ok s) : Reachable α ε s
  | step (s : ToolState α) (args : Request) (now : Int)
      (fetchFn : Request → Except ε α) (h : Reachable α ε s) :
      Reachable α ε (invoke s args now fetchFn).2.1

/-- A quote request passing the ticker under the key "ticker". -/
def reqTicker : Request := [("action", JValue.str "quote"), ("ticker", JValue.str "AAPL")]

/-- The same quote request with the ticker under the alias key "symbol". -/
def reqSymbol : Request := [("action", JValue.str "quote"), ("symbol", JValue.str "AAPL")]

/-- A history request leaving the period to its default. -/
def reqHistDefault : Request :=
  [("action", JValue.str "stock_history"), ("ticker", JValue.str "AAPL")]

/-- The same history request passing the default period explicitly. -/
def reqHistExplicit : Request :=
  [("action", JValue.str "stock_history"), ("period", JValue.str "1mo"),
   ("ticker", JValue.str "AAPL")]

/-- A freshly configured state with the default five-minute expiry. -/
def freshState : ToolState Nat := ⟨300, [], []⟩

/-- A fetch collaborator that always succeeds with result 1. -/
def fetchOk : Request → Except Unit Nat := fun _ => Except.ok 1

/-- A fetch collaborator that always fails. -/
def fetchFail : Request → Except Unit Nat := fun _ => Except.error ()

/-- The state after the scenario fetch at time 0 stored its result. -/
def storedState : ToolState Nat := cache_put freshState (canonicalize reqTicker) 1 0

/-- Lookup after assignment at the same key yields the assigned value. -/
theorem dict_get_set_self {β : Type} (d : List (String × β)) (k : String) (v : β) :
    dict_get (dict_set d k v) k = some v := by
  induction d with
  | nil => simp [dict_set, dict_get]
  | cons p rest ih =>
    obtain ⟨k', v'⟩ := p
    by_cases h : k' = k
    · subst h; simp [dict_set, dict_get]
    · simp [dict_set, dict_get, h, ih]

/-- Lookup after assignment at a different key is unchanged. -/
theorem dict_get_set_ne {β : Type} (d : List (String × β)) (k k' : String) (v : β)
    (h : k' ≠ k) : dict_get (dict_set d k v) k' = dict_get d k' := by
  induction d with
  | nil => simp [dict_set, dict_get, Ne.symm h]
  | cons p rest ih =>
    obtain ⟨a, b⟩ := p
    by_cases ha : a = k
    · subst ha
      simp [dict_set, dict_get, Ne.symm h]
    · by_cases ha' : a = k'
      · subst ha'; simp [dict_set, dict_get, ha]
      · simp [dict_set, dict_get, ha, ha', ih]

/-- Assignment preserves presence of any key. -/
theorem dict_get_set_isSome {β : Type} (d : List (String × β)) (k k' : String) (v : β)
    (h : (dict_get d k).isSome = true) :
    (dict_get (dict_set d k' v) k).isSome = true := by
  by_cases hk : k = k'
  · subst hk; simp [dict_get_set_self]
  · rw [dict_get_set_ne d k' k v hk]; exact h

/-- Lookup of a freshly stored entry: fresh within the expiry window of the
store time, miss from the boundary on. -/
theorem cache_get_put_self {α : Type} (s : ToolState α) (k : String) (v : α)
    (t0 t : Int) :
    cache_get (cache_put s k v t0) k t =
      if t - t0 < s.cache_expiry then some v else none := by
  simp [cache_get, cache_put, dict_get_set_self]

/-- Claim C1: after put(k, v, t0), a lookup get(k, t) returns v for every t
with 0 ≤ t - t0 < cache_expiry, and reports a miss for every t with
t - t0 ≥ cache_expiry; in particular the boundary t - t0 = cache_expiry is
a miss, since line 186 of tool.py compares with strict less-than. -/
theorem put_then_get {α : Type} (s : ToolState α) (k : String) (v : α) (t0 t : Int) :
    (0 ≤ t - t0 → t - t0 < s.cache_expiry →
        cache_get (cache_put s k v t0) k t = some v) ∧
    (s.cache_expiry ≤ t - t0 → cache_get (cache_put s k v t0) k t = none) := by
  rw [cache_get_put_self]
  constructor
  · intro _ h2
    rw [if_pos h2]
  · intro h
    rw [if_neg (by omega)]

/-- Witness for C1 at concrete inputs: expiry 300, store at 100, fresh
lookup at 250, stale lookup at 400. -/
theorem put_then_get_witness :
    cache_get (cache_put freshState "k" 7 100) "k" 250 = some 7 ∧
    cache_get (cache_put freshState "k" 7 100) "k" 400 = none :=
  ⟨(put_then_get freshState "k" 7 100 250).1 (by decide) (by decide),
   (put_then_get freshState "k" 7 100 400).2 (by decide)⟩

/-- The expiry setting is untouched by a store. -/
theorem cache_put_expiry {α : Type} (s : ToolState α) (k : String) (r : α) (t : Int) :
    (cache_put s k r t).cache_expiry = s.cache_expiry := rfl

/-- A fresh hit returns the stored result, leaves the state unchanged and
skips the fetch path. -/
theorem invoke_hit {α ε : Type} (s : ToolState α) (args : Request) (now : Int)
    (fetchFn : Request → Except ε α) (r : α)
    (h : cache_get s (canonicalize args) now = some r) :
    invoke s args now fetchFn = (Except.ok r, s, false) := by
  simp [invoke, h]

/-- On a miss with a successful fetch, the outcome is stored under the
canonical key with the call time. -/
theorem invoke_miss_ok {α ε : Type} (s : ToolState α) (args : Request) (now : Int)
    (fetchFn : Request → Except ε α) (r : α)
    (hm : cache_get s (canonicalize args) now = none)
    (hf : fetchFn args = Except.ok r) :
    invoke s args now fetchFn =
      (Except.ok r, cache_put s (canonicalize args) r now, true) := by
  simp [invoke, hm, hf]

/-- Every invoke either keeps the state or stores one successful fetch
outcome under the canonical key. -/
theorem invoke_state_cases {α ε : Type} (s : ToolState α) (args : Request) (now : Int)
    (fetchFn : Request → Except ε α) :
    (invoke s args now fetchFn).2.1 = s ∨
    ∃ r, fetchFn args = Except.ok r ∧
      (invoke s args now fetchFn).2.1 = cache_put s (canonicalize args) r now := by
  cases h : cache_get s (canonicalize args) now with
  | some r => left; simp [invoke, h]
  | none =>
    cases hf : fetchFn args with
    | ok r => right; exact ⟨r, rfl, by simp [invoke, h, hf]⟩
    | error e => left; simp [invoke, h, hf]

/-- Claim C3: when the fetch fails, invoke leaves both cache dicts untouched
(the state is returned as is, so no entry or timestamp is created or
overwritten for any key), and whenever the fetch path is actually taken the
error outcome reaches the caller; a failed fetch is never cached. -/
theorem fetch_failure_leaves_cache {α ε : Type} (s : ToolState α) (args : Request)
    (now : Int) (fetchFn : Request → Except ε α) (e : ε)
    (hfail : fetchFn args = Except.error e) :
    (invoke s args now fetchFn).2.1 = s ∧
    (cache_get s (canonicalize args) now = none →
      (invoke s args now fetchFn).1 = Except.error e) := by
  cases h : cache_get s (canonicalize args) now with
  | some r => exact ⟨by simp [invoke, h], fun hnone => by cases hnone⟩
  | none => exact ⟨by simp [invoke, h, hfail], fun _ => by simp [invoke, h, hfail]⟩

/-- Witness for C3: a failing fetch on the empty cache returns the error and
keeps the state. -/
theorem fetch_failure_leaves_cache_witness :
    (invoke freshState reqTicker 0 fetchFail).2.1 = freshState ∧
    (invoke freshState reqTicker 0 fetchFail).1 = Except.error () :=
  ⟨(fetch_failure_leaves_cache freshState reqTicker 0 fetchFail () rfl).1,
   (fetch_failure_leaves_cache freshState reqTicker 0 fetchFail () rfl).2 rfl⟩

/-- Calls whose keys coincide with a stored fresh entry are all hits: the
outcomes repeat the stored result, the state is unchanged and the fetch path
is never taken. -/
theorem runCalls_all_hits {α ε : Type} (fetchFn : Request → Except ε α)
    (s : ToolState α) (key : String) (r : α) (t1 : Int)
    (hc : dict_get s.cache key = some r)
    (ht : dict_get s.cache_timestamps key = some t1) :
    ∀ rest : List (Int × Request),
      (∀ c ∈ rest, canonicalize c.2 = key ∧ c.1 - t1 < s.cache_expiry) →
      runCalls fetchFn s rest = (rest.map (fun _ => Except.ok r), s, 0) := by
  intro rest
  induction rest with
  | nil => intro _; rfl
  | cons c cs ih =>
    intro hwin
    obtain ⟨hkey, hlt⟩ := hwin c (by simp)
    have hhit : cache_get s (canonicalize c.2) c.1 = some r := by
      rw [hkey]
      simp only [cache_get, hc, ht, Option.getD_some]
      rw [if_pos hlt]
    have hstep : invoke s c.2 c.1 fetchFn = (Except.ok r, s, false) :=
      invoke_hit s c.2 c.1 fetchFn r hhit
    have hrest := ih (fun c' hmem => hwin c' (by simp [hmem]))
    simp [runCalls, hstep, hrest]

/-- Claim C2: a sequence of calls sharing one canonical key, all timed within
one freshness window of the first call, takes the fetch path exactly once:
the first call fetches and stores, every later call returns the cached
result.  In particular, with expiry 300 seconds, the scenario call at time 0
fetches and returns the result, the identical call at time 100 returns it
from the cache without fetching, and the identical call at time 301 takes
the fetch path again. -/
theorem fetch_once_per_window {α ε : Type} (s : ToolState α) (a1 : Request)
    (t1 : Int) (rest : List (Int × Request)) (fetchFn : Request → Except ε α)
    (r : α)
    (hmiss : cache_get s (canonicalize a1) t1 = none)
    (hfetch : fetchFn a1 = Except.ok r)
    (hwin : ∀ c ∈ rest, canonicalize c.2 = canonicalize a1 ∧
        0 ≤ c.1 - t1 ∧ c.1 - t1 < s.cache_expiry) :
    ((runCalls fetchFn s ((t1, a1) :: rest)).2.2 = 1 ∧
     (runCalls fetchFn s ((t1, a1) :: rest)).1 =
       ((t1, a1) :: rest).map (fun _ => Except.ok r)) ∧
    invoke freshState reqTicker 0 fetchOk = (Except.ok 1, storedState, true) ∧
    invoke storedState reqTicker 100 fetchOk = (Except.ok 1, storedState, false) ∧
    (invoke storedState reqTicker 301 fetchOk).2.2 = true := by
  have hB : cache_get storedState (canonicalize reqTicker) 100 = some 1 := by
    unfold storedState
    rw [cache_get_put_self]
    norm_num [freshState]
  have hC : cache_get storedState (canonicalize reqTicker) 301 = none := by
    unfold storedState
    rw [cache_get_put_self]
    norm_num [freshState]
  refine ⟨?_, invoke_miss_ok freshState reqTicker 0 fetchOk 1 rfl rfl,
    invoke_hit storedState reqTicker 100 fetchOk 1 hB,
    by rw [invoke_miss_ok storedState reqTicker 301 fetchOk 1 hC rfl]⟩
  have hstep := invoke_miss_ok s a1 t1 fetchFn r hmiss hfetch
  have hc : dict_get (cache_put s (canonicalize a1) r t1).cache (canonicalize a1) =
      some r := dict_get_set_self s.cache (canonicalize a1) r
  have ht : dict_get (cache_put s (canonicalize a1) r t1).cache_timestamps
      (canonicalize a1) = some t1 := dict_get_set_self s.cache_timestamps (canonicalize a1) t1
  have hrest := runCalls_all_hits fetchFn (cache_put s (canonicalize a1) r t1)
      (canonicalize a1) r t1 hc ht rest
      (fun c hmem => ⟨(hwin c hmem).1, by rw [cache_put_expiry]; exact (hwin c hmem).2.2⟩)
  simp [runCalls, hstep, hrest]

/-- Witness for C2: starting from the freshly configured state with expiry
300, the calls at times 0 and 100 produce exactly one fetch and both return
the fetched result. -/
theorem fetch_once_per_window_witness :
    ((runCalls fetchOk freshState ((0, reqTicker) :: [(100, reqTicker)])).2.2 = 1 ∧
     (runCalls fetchOk freshState ((0, reqTicker) :: [(100, reqTicker)])).1 =
       ((0, reqTicker) :: [(100, reqTicker)]).map (fun _ => Except.ok 1)) ∧
    invoke freshState reqTicker 0 fetchOk = (Except.ok 1, storedState, true) ∧
    invoke storedState reqTicker 100 fetchOk = (Except.ok 1, storedState, false) ∧
    (invoke storedState reqTicker 301 fetchOk).2.2 = true :=
  fetch_once_per_window freshState reqTicker 0 [(100, reqTicker)] fetchOk 1 rfl rfl
    (by
      intro c hcm
      rw [List.mem_singleton] at hcm
      subst hcm
      exact ⟨rfl, by decide, by decide⟩)

/-- Key-sorting yields a list sorted under the key order. -/
theorem sortByKey_sorted (r : Request) : (sortByKey r).Sorted keyLE :=
  List.sorted_insertionSort keyLE r

/-- Key-sorting permutes the request entries. -/
theorem sortByKey_perm (r : Request) : (sortByKey r).Perm r :=
  List.perm_insertionSort keyLE r

/-- On a list with duplicate-free keys, sortedness under the weak key order
strengthens to the strict key order. -/
theorem sorted_keyLT_of_nodup {l : List (String × JValue)}
    (hs : l.Sorted keyLE) (hn : (l.map Prod.fst).Nodup) : l.Sorted keyLT := by
  have hne : l.Pairwise (fun a b => a.1 ≠ b.1) := List.pairwise_map.mp hn
  exact List.Pairwise.imp (fun h => lt_of_le_of_ne h.1 h.2)
    (List.Pairwise.and hs hne)

/-- Claim C4: canonicalize is a plain function of the request dict, hence
deterministic, and two requests holding the same unordered key-to-value
mapping (permutations of one another, keys duplicate-free as in any Python
dict) receive the same canonical key, since both serialize their entries in
sorted key order. -/
theorem canonicalize_perm_invariant (r1 r2 : Request) (hperm : r1.Perm r2)
    (hn : (r1.map Prod.fst).Nodup) : canonicalize r1 = canonicalize r2 := by
  have hn1 : ((sortByKey r1).map Prod.fst).Nodup :=
    ((sortByKey_perm r1).map Prod.fst).nodup_iff.mpr hn
  have hn2 : ((sortByKey r2).map Prod.fst).Nodup :=
    ((sortByKey_perm r2).map Prod.fst).nodup_iff.mpr
      ((hperm.map Prod.fst).nodup_iff.mp hn)
  have hp : (sortByKey r1).Perm (sortByKey r2) :=
    (sortByKey_perm r1).trans (hperm.trans (sortByKey_perm r2).symm)
  have heq : sortByKey r1 = sortByKey r2 :=
    List.eq_of_perm_of_sorted hp
      (sorted_keyLT_of_nodup (sortByKey_sorted r1) hn1)
      (sorted_keyLT_of_nodup (sortByKey_sorted r2) hn2)
  unfold canonicalize
  rw [heq]

/-- Witness for C4: the two orderings of the quote request share one key. -/
theorem canonicalize_perm_invariant_witness :
    canonicalize [("ticker", JValue.str "AAPL"), ("action", JValue.str "quote")] =
      canonicalize reqTicker :=
  canonicalize_perm_invariant _ _
    (List.Perm.swap ("action", JValue.str "quote") ("ticker", JValue.str "AAPL") [])
    (by decide)

/-- Resolution of the default level name INFO. -/
theorem set_level_INFO : set_level "INFO" = Except.ok 20 := by
  unfold set_level
  rw [show levelConstant (upper "INFO") = some 20 from by decide]

/-- Resolution of an unknown level name fails with the ValueError text. -/
theorem set_level_BOGUS :
    set_level "BOGUS" = Except.error "Invalid log level: BOGUS" := by
  unfold set_level
  rw [show levelConstant (upper "BOGUS") = none from by decide]
  exact congrArg Except.error (by decide)

/-- A successful set_config yields exactly the state with the derived expiry
and the two empty dicts. -/
theorem set_config_ok_elim {α : Type} (config : Config) (s : ToolState α)
    (h : set_config α config = Except.ok s) :
    s = ⟨(config.cache_expiry.getD 5) * 60, [], []⟩ := by
  cases hl : set_level (config.logging_level.getD "INFO") with
  | ok c =>
    simp only [set_config, hl, Except.ok.injEq] at h
    exact h.symm
  | error e => simp [set_config, hl] at h

/-- The default configuration constructs the fresh state with expiry 300. -/
theorem set_config_default :
    set_config Nat { cache_expiry := none, logging_level := none } =
      Except.ok freshState := by
  simp [set_config, set_level_INFO, freshState]

/-- Claim C5 counterexample: a negative expiry is accepted silently at
construction instead of being rejected as a configuration error. -/
theorem set_config_accepts_negative_expiry :
    set_config Nat { cache_expiry := some (-5), logging_level := some "INFO" } =
      Except.ok ⟨-300, [], []⟩ := by
  simp [set_config, set_level_INFO]

/-- Claim C5 (amended): set_config applies no validation to the expiry value
at all — any configured number, negative ones included, is accepted and
multiplied by 60 — while an invalid logging level does raise at
construction, via the ValueError of set_level re-raised by setup_logging;
with a valid configuration the construction and the cache operations, being
total, cannot fail. -/
theorem set_config_validation (α : Type) (config : Config) :
    (∀ c, set_level (config.logging_level.getD "INFO") = Except.ok c →
      set_config α config =
        Except.ok ⟨(config.cache_expiry.getD 5) * 60, [], []⟩) ∧
    (∀ e, set_level (config.logging_level.getD "INFO") = Except.error e →
      set_config α config = Except.error e) := by
  constructor
  · intro c hc
    simp [set_config, hc]
  · intro e he
    simp [set_config, he]

/-- Witness for C5: a negative expiry of -7 minutes is accepted, and the
level BOGUS is rejected at construction. -/
theorem set_config_validation_witness :
    set_config Nat { cache_expiry := some (-7), logging_level := some "INFO" } =
      Except.ok ⟨-420, [], []⟩ ∧
    set_config Nat { cache_expiry := some 5, logging_level := some "BOGUS" } =
      Except.error "Invalid log level: BOGUS" :=
  ⟨(set_config_validation Nat _).1 20 set_level_INFO,
   (set_config_validation Nat _).2 "Invalid log level: BOGUS" set_level_BOGUS⟩

/-- Claim C8: a successful construction derives cache_expiry as the
configured minute count times 60, and falls back to the default of 5
minutes, hence 300 seconds, when the configuration omits the value. -/
theorem expiry_from_config (α : Type) (config : Config) (m : Int) (s : ToolState α)
    (hok : set_config α config = Except.ok s) :
    (config.cache_expiry = some m → s.cache_expiry = m * 60) ∧
    (config.cache_expiry = none → s.cache_expiry = 300) := by
  have hs := set_config_ok_elim config s hok
  subst hs
  constructor
  · intro h
    simp [h]
  · intro h
    simp [h]

/-- Witness for C8: seven configured minutes give 420 seconds, and the
default configuration gives 300 seconds. -/
theorem expiry_from_config_witness :
    (⟨420, [], []⟩ : ToolState Nat).cache_expiry = 7 * 60 ∧
    freshState.cache_expiry = 300 :=
  ⟨(expiry_from_config Nat ⟨some 7, some "INFO"⟩ 7 ⟨420, [], []⟩
      (by simp [set_config, set_level_INFO])).1 rfl,
   (expiry_from_config Nat ⟨none, none⟩ 7 freshState set_config_default).2 rfl⟩

/-- The keys present after an assignment are the assigned key and the keys
present before. -/
theorem mem_keys_dict_set {β : Type} (d : List (String × β)) (k x : String) (v : β) :
    x ∈ (dict_set d k v).map Prod.fst ↔ x = k ∨ x ∈ d.map Prod.fst := by
  induction d with
  | nil => simp [dict_set]
  | cons p rest ih =>
    obtain ⟨a, b⟩ := p
    by_cases ha : a = k
    · subst ha
      simp [dict_set]
    · simp [dict_set, ha, ih]
      tauto

/-- Assignment preserves duplicate-freeness of the key list. -/
theorem dict_set_nodup {β : Type} (d : List (String × β)) (k : String) (v : β)
    (h : (d.map Prod.fst).Nodup) : ((dict_set d k v).map Prod.fst).Nodup := by
  induction d with
  | nil => simp [dict_set]
  | cons p rest ih =>
    obtain ⟨a, b⟩ := p
    simp only [List.map_cons, List.nodup_cons] at h
    obtain ⟨h1, h2⟩ := h
    by_cases ha : a = k
    · subst ha
      have he : dict_set ((a, b) :: rest) a v = (a, v) :: rest := by
        simp [dict_set]
      rw [he]
      simp only [List.map_cons, List.nodup_cons]
      exact ⟨h1, h2⟩
    · have he : dict_set ((a, b) :: rest) k v = (a, b) :: dict_set rest k v := by
        simp [dict_set, ha]
      rw [he]
      simp only [List.map_cons, List.nodup_cons]
      refine ⟨fun hmem => ?_, ih h2⟩
      rcases (mem_keys_dict_set rest k a v).mp hmem with h' | h'
      · exact ha h'
      · exact h1 h'

/-- Claim C6: a lookup that finds a stale entry reports a miss while being
read-only, so the entry survives it; and no cache operation removes an
entry — a key present in the cache is still present after any invoke and
after any put, so expiry alone never reaches a deleted state. -/
theorem stale_miss_no_eviction {α ε : Type} (s : ToolState α) (k : String) (r : α)
    (now : Int) (args : Request) (t : Int) (fetchFn : Request → Except ε α)
    (k' : String) (r' : α) (t' : Int)
    (hk : dict_get s.cache k = some r) :
    (s.cache_expiry ≤ now - ((dict_get s.cache_timestamps k).getD 0) →
      cache_get s k now = none) ∧
    (dict_get ((invoke s args t fetchFn).2.1).cache k).isSome = true ∧
    (dict_get (cache_put s k' r' t').cache k).isSome = true := by
  refine ⟨fun hstale => ?_, ?_, ?_⟩
  · simp only [cache_get, hk]
    rw [if_neg (by omega)]
  · rcases invoke_state_cases s args t fetchFn with h | ⟨r0, _, h⟩
    · rw [h]
      simp [hk]
    · rw [h]
      exact dict_get_set_isSome s.cache k (canonicalize args) r0 (by simp [hk])
  · exact dict_get_set_isSome s.cache k k' r' (by simp [hk])

/-- Witness for C6: a lookup at exactly the expiry boundary misses but the
entry survives an invoke and a put of another key. -/
theorem stale_miss_no_eviction_witness :
    cache_get (⟨300, [("k", 42)], [("k", 0)]⟩ : ToolState Nat) "k" 300 = none ∧
    (dict_get ((invoke (⟨300, [("k", 42)], [("k", 0)]⟩ : ToolState Nat)
        reqTicker 0 fetchOk).2.1).cache "k").isSome = true ∧
    (dict_get (cache_put (⟨300, [("k", 42)], [("k", 0)]⟩ : ToolState Nat)
        "j" 7 5).cache "k").isSome = true :=
  ⟨(stale_miss_no_eviction _ "k" 42 300 reqTicker 0 fetchOk "j" 7 5 (by decide)).1
      (by decide),
   (stale_miss_no_eviction _ "k" 42 300 reqTicker 0 fetchOk "j" 7 5 (by decide)).2.1,
   (stale_miss_no_eviction _ "k" 42 300 reqTicker 0 fetchOk "j" 7 5 (by decide)).2.2⟩

/-- Claim C7: every state reachable from construction keeps at most one
cache entry per canonical key — its key list is duplicate-free and every
count is at most one — and a put stores or overwrites the single entry and
timestamp for its key, preserving duplicate-freeness, replacing rather than
appending. -/
theorem at_most_one_entry_per_key {α ε : Type} (s : ToolState α)
    (h : Reachable α ε s) :
    (s.cache.map Prod.fst).Nodup ∧
    (∀ k, (s.cache.map Prod.fst).count k ≤ 1) ∧
    (∀ (k : String) (r : α) (t : Int),
      dict_get (cache_put s k r t).cache k = some r ∧
      dict_get (cache_put s k r t).cache_timestamps k = some t ∧
      ((cache_put s k r t).cache.map Prod.fst).Nodup) := by
  have hn : (s.cache.map Prod.fst).Nodup := by
    induction h with
    | init config s0 hcfg =>
      have hs := set_config_ok_elim config s0 hcfg
      subst hs
      simp
    | step s0 args now fetchFn h0 ih =>
      rcases invoke_state_cases s0 args now fetchFn with he | ⟨r0, _, he⟩
      · rw [he]
        exact ih
      · rw [he]
        exact dict_set_nodup s0.cache (canonicalize args) r0 ih
  exact ⟨hn, fun k => List.nodup_iff_count_le_one.mp hn k,
    fun k r t => ⟨dict_get_set_self s.cache k r,
      dict_get_set_self s.cache_timestamps k t,
      dict_set_nodup s.cache k r hn⟩⟩

/-- Witness for C7 at the freshly constructed reachable state. -/
theorem at_most_one_entry_per_key_witness :
    (freshState.cache.map Prod.fst).Nodup ∧
    (freshState.cache.map Prod.fst).count "k" ≤ 1 :=
  ⟨(at_most_one_entry_per_key freshState
      ((Reachable.init ⟨none, none⟩ freshState set_config_default :
        Reachable Nat Unit freshState))).1,
   (at_most_one_entry_per_key freshState
      ((Reachable.init ⟨none, none⟩ freshState set_config_default :
        Reachable Nat Unit freshState))).2.1 "k"⟩

/-- Claim C10: from the empty pair of dicts created at configuration, every
store writes result and timestamp for the same key in one step, so in every
reachable state each cached key has a stored timestamp; and a lookup on an
entry whose timestamp is absent falls back to 0 through the get(key, 0)
default and therefore reports the entry stale (a miss) for any time at or
past the expiry, rather than failing. -/
theorem cache_timestamps_in_sync {α ε : Type} (s : ToolState α)
    (h : Reachable α ε s) :
    (∀ k, (dict_get s.cache k).isSome = true →
      (dict_get s.cache_timestamps k).isSome = true) ∧
    (∀ (s' : ToolState α) (k : String) (r : α) (now : Int),
      dict_get s'.cache k = some r → dict_get s'.cache_timestamps k = none →
      s'.cache_expiry ≤ now → cache_get s' k now = none) := by
  constructor
  · induction h with
    | init config s0 hcfg =>
      have hs := set_config_ok_elim config s0 hcfg
      subst hs
      intro k hk
      simp [dict_get] at hk
    | step s0 args now fetchFn h0 ih =>
      rcases invoke_state_cases s0 args now fetchFn with he | ⟨r0, _, he⟩
      · rw [he]
        exact ih
      · rw [he]
        intro k hk
        simp only [cache_put] at hk ⊢
        by_cases hkk : k = canonicalize args
        · subst hkk
          simp [dict_get_set_self]
        · rw [dict_get_set_ne s0.cache_timestamps (canonicalize args) k now hkk]
          rw [dict_get_set_ne s0.cache (canonicalize args) k r0 hkk] at hk
          exact ih k hk
  · intro s' k r now hc hts hle
    simp only [cache_get, hc, hts, Option.getD_none]
    rw [if_neg (by omega)]

/-- Witness for C10: after one stored fetch the timestamp for the stored key
exists, and a state with an entry but no timestamp misses at the expiry. -/
theorem cache_timestamps_in_sync_witness :
    (dict_get ((invoke freshState reqTicker 0 fetchOk).2.1).cache_timestamps
        (canonicalize reqTicker)).isSome = true ∧
    cache_get (⟨300, [("k", 42)], []⟩ : ToolState Nat) "k" 300 = none :=
  ⟨(cache_timestamps_in_sync _
      ((Reachable.step freshState reqTicker 0 fetchOk
        (Reachable.init ⟨none, none⟩ freshState set_config_default)) :
        Reachable Nat Unit _)).1 (canonicalize reqTicker) (by decide),
   (cache_timestamps_in_sync freshState
      ((Reachable.init ⟨none, none⟩ freshState set_config_default :
        Reachable Nat Unit freshState))).2 ⟨300, [("k", 42)], []⟩ "k" 42 300
      (by decide) (by decide) (by decide)⟩

/-- Claim C9: the cache key is computed from the raw argument dict before the
symbol/ticker aliasing of line 195 and before the period default of line
206: a request passing the value as ticker and one passing it as symbol have
the same effective symbol yet distinct canonical keys, and likewise a
history request omitting the period versus passing its default explicitly;
run in sequence each pair takes the fetch path twice and ends with two
separate cache entries. -/
theorem raw_key_before_normalization :
    effectiveSymbol reqTicker = effectiveSymbol reqSymbol ∧
    canonicalize reqTicker ≠ canonicalize reqSymbol ∧
    effectivePeriod reqHistDefault = effectivePeriod reqHistExplicit ∧
    canonicalize reqHistDefault ≠ canonicalize reqHistExplicit ∧
    (runCalls fetchOk freshState [(0, reqTicker), (0, reqSymbol)]).2.2 = 2 ∧
    (dict_get ((runCalls fetchOk freshState
        [(0, reqTicker), (0, reqSymbol)]).2.1).cache
        (canonicalize reqTicker)).isSome = true ∧
    (dict_get ((runCalls fetchOk freshState
        [(0, reqTicker), (0, reqSymbol)]).2.1).cache
        (canonicalize reqSymbol)).isSome = true ∧
    (runCalls fetchOk freshState [(0, reqHistDefault), (0, reqHistExplicit)]).2.2 = 2 := by
  decide

end YFTool
